import Mathlib

/-!
Shallow embedding of src/CryptoV1.py (class CryptoTrader).

Modelling conventions:

* Python Decimal values (context precision 18) are modelled as exact
  rationals; every product the program forms stays within the configured
  precision on the inputs considered, where Decimal arithmetic is exact.
* Every outbound HTTP call the program makes is recorded in an explicit
  trace (NetCall).  The response each external service would give is an
  input (the World structure), with one constructor per observable
  shape: the request raising (transport error, timeout, or a body that
  fails JSON decoding where the program immediately calls .json() inside
  the same try block), or a response carrying a status code and a body.
* Python dict return values are modelled by inductives with one
  constructor per key set the program actually builds; subscripting a
  missing key or subscripting None raises, and the model returns the
  message str(e) the interpreter would produce for that exception.
* Endpoint URLs, API keys and logging are omitted: they do not affect
  any value the program returns.  The pair/token address a request is
  for is kept, recorded in the trace entry of that request.
-/

/-- A security check verdict dict: key passed, and on failure a key
reason ({"passed": False, "reason": r} or {"passed": True}). -/
structure Verdict where
  passed : Bool
  reason : Option String
  deriving DecidableEq, Repr

/-- The venue confirmation payload (response.json() of a created order);
kept abstract as its serialized form. -/
abbrev Confirmation := String

/-- The order payload built by _execute_gmgn_order.  The amount field is
serialized with str() in the source; it is kept as the Decimal value. -/
structure Order where
  pair : String
  baseToken : String
  quoteToken : String
  amount : ℚ
  price : String
  side : String
  leverage : ℚ
  stopLoss : ℚ
  takeProfit : ℚ
  deriving DecidableEq, Repr

/-- One outbound HTTP request, as recorded in the trace. -/
inductive NetCall where
  | dexFetch (pairAddress : String)
  | auditGet (tokenAddress : String)
  | balanceGet
  | orderPost (o : Order)
  deriving DecidableEq, Repr

/-- The sequence of outbound HTTP requests a run performed. -/
abbrev Trace := List NetCall

/-- Outcome of running a Python snippet: a returned value or a raised
exception (with str(e)), together with the outbound calls made. -/
inductive PyOutcome (α : Type) where
  | val (a : α) (t : Trace)
  | exn (msg : String) (t : Trace)
  deriving DecidableEq, Repr

/-- The dict _security_analysis returns: either the failing check dict
(keys passed/reason) or the approval dict (keys approved/message). -/
inductive SecOut where
  | verdict (v : Verdict)
  | approval (approved : Bool) (message : String)
  deriving DecidableEq, Repr

/-- The dicts analyze_and_trade can return: the error dict
{"status": "error", "message": m}, the success dict
{"status": "success", "order": j}, or the dict _security_analysis
produced, returned as is by the line return security_check. -/
inductive TradeDict where
  | statusError (message : String)
  | statusSuccess (order : Confirmation)
  | secDict (s : SecOut)
  deriving DecidableEq, Repr

/-- The configuration values the program reads from config.yaml.
Endpoint URLs and API keys are omitted (they only shape URLs).  The
fields from minLiquidity on are modelled from the spec: they configure
the three checks whose implementations are missing from the source
(liquidity, volume, holder distribution), as policy thresholds and a
configurable suspicious-volume predicate (spec section 4.2). -/
structure Config where
  blacklistTokens : List String
  blacklistDevelopers : List String
  minScore : Int
  positionSizePct : ℚ
  leverage : ℚ
  stopLossPct : ℚ
  takeProfitPct : ℚ
  minLiquidity : ℚ
  minVolume : ℚ
  volumeSuspicious : ℚ → Bool
  maxTopHolderPct : ℚ

/-- A market data snapshot for a pair, as consumed by the program; the
creator key may be absent (data.get("creator", "")).  The last three
fields are the liquidity/volume/holder metrics the spec lists in the
snapshot; the source itself never reads them (its checks are stubs). -/
structure PairData where
  pairAddress : String
  creator : Option String
  baseTokenAddress : String
  quoteTokenAddress : String
  priceUsd : String
  liquidityUsd : ℚ
  volume24h : ℚ
  topHolderPct : ℚ
  deriving DecidableEq, Repr

/-- What the DexScreener GET would do: raise a transport error, or
respond with a status code and a body; body none is a body that
response.json() fails to decode (the decode error raises and is caught).
A well formed body is modelled as already schema shaped. -/
inductive DexOutcome where
  | raise (msg : String)
  | respond (status : Nat) (body : Option PairData)
  deriving Repr

/-- What the RugCheck GET would do: raise (transport error, timeout, or
JSON decode failure inside the same try), or deliver a decoded payload
in which the auditStatus and auditScore keys may each be absent. -/
inductive AuditOutcome where
  | raise (msg : String)
  | payload (auditStatus : Option String) (auditScore : Option Int)
  deriving Repr

/-- What the GMGN balance GET would do: any raising path (transport
error, JSON decode failure, missing available key, invalid Decimal
literal) is one raise constructor, since the except clause treats them
alike; ok q is a response whose available field parses to the Decimal
q. -/
inductive BalanceOutcome where
  | raise (msg : String)
  | ok (available : ℚ)
  deriving Repr

/-- What the GMGN order POST would do: raise a transport error, or
respond with a status code, a response text, and a body that either
decodes to a confirmation payload or makes response.json() raise with
the given message. -/
inductive OrderOutcome where
  | raise (msg : String)
  | respond (status : Nat) (text : String) (body : Except String Confirmation)
  deriving Repr

/-- The responses the external world would give to each of the four
requests of one workflow run. -/
structure World where
  dex : DexOutcome
  audit : AuditOutcome
  balance : BalanceOutcome
  order : OrderOutcome

/-- Python str.lower(), character by character; token and developer
addresses are ASCII hex strings, on which this agrees with Python. -/
def pyLower (s : String) : String := ⟨s.data.map Char.toLower⟩

/-- Source _check_blacklists: lowers the pair address and the creator
address (a missing creator defaults to the empty string) and tests raw
membership in the configured collections; only the data side is
lowered.  Purely local: no network call. -/
def check_blacklists (cfg : Config) (d : PairData) : Option Verdict × Trace :=
  let pair_addr := pyLower d.pairAddress
  let creator_addr := pyLower (d.creator.getD "")
  if pair_addr ∈ cfg.blacklistTokens then
    (some { passed := false, reason := some "Token blacklisted" }, [])
  else if creator_addr ∈ cfg.blacklistDevelopers then
    (some { passed := false, reason := some "Developer blacklisted" }, [])
  else
    (some { passed := true, reason := none }, [])

/-- Source _check_rug_pull_risk: one GET to the audit provider for the
base token.  Any exception in the try block (transport error, timeout,
JSON decode failure) is caught and yields the fail verdict with reason
"Audit verification error".  A payload whose auditStatus is not "GOOD"
fails the audit; otherwise audit.get("auditScore", 0) is compared with
the configured minimum, and in the low branch the f-string subscripts
audit with the auditScore key, so a payload with the key absent (when 0
is below the minimum) raises KeyError there, caught by the same except
clause. -/
def check_rug_pull_risk (cfg : Config) (d : PairData) (a : AuditOutcome) :
    Option Verdict × Trace :=
  let tr : Trace := [NetCall.auditGet d.baseTokenAddress]
  match a with
  | .raise _ => (some { passed := false, reason := some "Audit verification error" }, tr)
  | .payload st sc =>
    if st ≠ some "GOOD" then
      (some { passed := false, reason := some "Failed security audit" }, tr)
    else if sc.getD 0 < cfg.minScore then
      match sc with
      | some s =>
        (some { passed := false, reason := some ("Low audit score: " ++ toString s) }, tr)
      | none =>
        (some { passed := false, reason := some "Audit verification error" }, tr)
    else
      (some { passed := true, reason := none }, tr)

/-- Source _check_liquidity: the body is a bare Ellipsis expression, so
the call returns None and makes no network call. -/
def check_liquidity (_d : PairData) : Option Verdict × Trace := (none, [])

/-- Source _validate_volume: the body is a bare Ellipsis expression, so
the call returns None and makes no network call. -/
def validate_volume (_d : PairData) : Option Verdict × Trace := (none, [])

/-- Source _analyze_holders: the body is a bare Ellipsis expression, so
the call returns None and makes no network call. -/
def analyze_holders (_d : PairData) : Option Verdict × Trace := (none, [])

/-- The loop of _security_analysis: run each check in order; subscript
its result with the passed key (subscripting None raises TypeError with
the message below); return the failing check dict on the first failure;
return the approval dict only after every check passed.  Each check
contributes its network calls when (and only when) the loop reaches
it. -/
def loopChecks : List (Option Verdict × Trace) → Trace → PyOutcome SecOut
  | [], acc => .val (.approval true "Security checks passed") acc
  | (r, t) :: rest, acc =>
    match r with
    | none => .exn "\x27NoneType\x27 object is not subscriptable" (acc ++ t)
    | some v =>
      if v.passed then loopChecks rest (acc ++ t) else .val (.verdict v) (acc ++ t)

/-- The ordered check list of _security_analysis, with the source
implementations (the last three are the None-returning stubs). -/
def securityChecks (cfg : Config) (d : PairData) (a : AuditOutcome) :
    List (Option Verdict × Trace) :=
  [check_blacklists cfg d, check_rug_pull_risk cfg d a,
   check_liquidity d, validate_volume d, analyze_holders d]

/-- Source _security_analysis over the source check list. -/
def security_analysis (cfg : Config) (d : PairData) (a : AuditOutcome) :
    PyOutcome SecOut :=
  loopChecks (securityChecks cfg d a) []

/-- Subscripting the approved key on the dict _security_analysis
returned (line security_check["approved"]): the failing check dicts
carry only passed/reason, so the lookup raises KeyError, whose str() is
the quoted key name. -/
def SecOut.getApproved : SecOut → Except String Bool
  | .verdict _ => .error "\x27approved\x27"
  | .approval a _ => .ok a

/-- Source _get_dexscreener_data: one GET; on any exception in the try
block (transport error or JSON decode failure) returns None; otherwise
returns response.json() without inspecting response.status_code. -/
def get_dexscreener_data (resp : DexOutcome) (pair_address : String) :
    Option PairData × Trace :=
  let tr : Trace := [NetCall.dexFetch pair_address]
  match resp with
  | .raise _ => (none, tr)
  | .respond _ body => (body, tr)

/-- Source _get_gmgn_balance: one GET; on any exception returns
Decimal(0); otherwise Decimal(response.json()["available"]). -/
def get_gmgn_balance (resp : BalanceOutcome) : ℚ × Trace :=
  match resp with
  | .raise _ => (0, [NetCall.balanceGet])
  | .ok q => (q, [NetCall.balanceGet])

/-- The order payload literal of _execute_gmgn_order. -/
def build_order (cfg : Config) (d : PairData) (position_size : ℚ) : Order :=
  { pair := d.pairAddress
    baseToken := d.baseTokenAddress
    quoteToken := d.quoteTokenAddress
    amount := position_size
    price := d.priceUsd
    side := "BUY"
    leverage := cfg.leverage
    stopLoss := cfg.stopLossPct
    takeProfit := cfg.takeProfitPct }

/-- Source _execute_gmgn_order: fetches the balance, computes
position_size = balance * Decimal(position_size_pct) with no
validation, builds the order payload and always POSTs it once.  A 201
response with a decodable body returns the success dict carrying
response.json(); a 201 response whose body fails to decode raises
inside the try and is caught into the error dict; any other status
returns the error dict carrying response.text; a transport failure of
the POST is caught into the error dict carrying str(e). -/
def execute_gmgn_order (cfg : Config) (d : PairData) (bal : BalanceOutcome)
    (ord : OrderOutcome) : TradeDict × Trace :=
  let (balance, t1) := get_gmgn_balance bal
  let position_size := balance * cfg.positionSizePct
  let o := build_order cfg d position_size
  let t2 := t1 ++ [NetCall.orderPost o]
  match ord with
  | .raise m => (.statusError m, t2)
  | .respond status text body =>
    if status = 201 then
      match body with
      | .ok j => (.statusSuccess j, t2)
      | .error m => (.statusError m, t2)
    else
      (.statusError text, t2)

/-- Source analyze_and_trade: fetch, security analysis, execution, with
every exception of the try block caught into the error dict carrying
str(e).  A falsy fetch result (None) yields the "Data fetch failed"
error dict before any check runs. -/
def analyze_and_trade (cfg : Config) (w : World) (pair_address : String) :
    TradeDict × Trace :=
  let (pd, t1) := get_dexscreener_data w.dex pair_address
  match pd with
  | none => (.statusError "Data fetch failed", t1)
  | some data =>
    match security_analysis cfg data w.audit with
    | .exn m t2 => (.statusError m, t1 ++ t2)
    | .val sec t2 =>
      match sec.getApproved with
      | .error m => (.statusError m, t1 ++ t2)
      | .ok approved =>
        if approved then
          let (res, t3) := execute_gmgn_order cfg data w.balance w.order
          (res, t1 ++ t2 ++ t3)
        else
          (.secDict sec, t1 ++ t2)

/-- Modelled from the spec: the source only declares _check_liquidity as
a stub; spec section 4.2 item 3 says the check fails if pool liquidity
is below a configured minimum. -/
def check_liquidity_spec (cfg : Config) (d : PairData) : Option Verdict × Trace :=
  if d.liquidityUsd < cfg.minLiquidity then
    (some { passed := false, reason := some "Insufficient liquidity" }, [])
  else
    (some { passed := true, reason := none }, [])

/-- Modelled from the spec: the source only declares _validate_volume as
a stub; spec section 4.2 item 4 says the check fails if recent volume is
below a configured minimum or matches a configured suspicious-pattern
policy predicate. -/
def validate_volume_spec (cfg : Config) (d : PairData) : Option Verdict × Trace :=
  if d.volume24h < cfg.minVolume ∨ cfg.volumeSuspicious d.volume24h then
    (some { passed := false, reason := some "Suspicious volume" }, [])
  else
    (some { passed := true, reason := none }, [])

/-- Modelled from the spec: the source only declares _analyze_holders as
a stub; spec section 4.2 item 5 says the check fails if top-holder
concentration exceeds a configured maximum percentage. -/
def analyze_holders_spec (cfg : Config) (d : PairData) : Option Verdict × Trace :=
  if cfg.maxTopHolderPct < d.topHolderPct then
    (some { passed := false, reason := some "Holder concentration too high" }, [])
  else
    (some { passed := true, reason := none }, [])

/-- The check list of _security_analysis with the three missing
implementations replaced by their spec-modelled versions; the first two
entries are the source implementations unchanged. -/
def securityChecks_spec (cfg : Config) (d : PairData) (a : AuditOutcome) :
    List (Option Verdict × Trace) :=
  [check_blacklists cfg d, check_rug_pull_risk cfg d a,
   check_liquidity_spec cfg d, validate_volume_spec cfg d, analyze_holders_spec cfg d]

/-- The engine loop of _security_analysis over the spec-completed check
list. -/
def security_analysis_spec (cfg : Config) (d : PairData) (a : AuditOutcome) :
    PyOutcome SecOut :=
  loopChecks (securityChecks_spec cfg d a) []

/-- analyze_and_trade with its engine running the spec-completed check
list; the orchestrator and execution code are the source ones. -/
def analyze_and_trade_spec (cfg : Config) (w : World) (pair_address : String) :
    TradeDict × Trace :=
  let (pd, t1) := get_dexscreener_data w.dex pair_address
  match pd with
  | none => (.statusError "Data fetch failed", t1)
  | some data =>
    match security_analysis_spec cfg data w.audit with
    | .exn m t2 => (.statusError m, t1 ++ t2)
    | .val sec t2 =>
      match sec.getApproved with
      | .error m => (.statusError m, t1 ++ t2)
      | .ok approved =>
        if approved then
          let (res, t3) := execute_gmgn_order cfg data w.balance w.order
          (res, t1 ++ t2 ++ t3)
        else
          (.secDict sec, t1 ++ t2)

/-- Number of order POSTs (submission attempts) in a trace. -/
def countPosts : Trace → Nat
  | [] => 0
  | NetCall.orderPost _ :: r => countPosts r + 1
  | _ :: r => countPosts r

/-- The order payloads actually POSTed in a trace, in order. -/
def postedOrders : Trace → List Order
  | [] => []
  | NetCall.orderPost o :: r => o :: postedOrders r
  | _ :: r => postedOrders r

/-- A baseline configuration for concrete runs: empty blacklists, audit
minimum 70, full position size. -/
def cfg0 : Config :=
  { blacklistTokens := []
    blacklistDevelopers := []
    minScore := 70
    positionSizePct := 1
    leverage := 2
    stopLossPct := 5
    takeProfitPct := 10
    minLiquidity := 100
    minVolume := 50
    volumeSuspicious := fun _ => false
    maxTopHolderPct := 30 }

/-- A baseline market snapshot for concrete runs. -/
def pd0 : PairData :=
  { pairAddress := "0xPAIR"
    creator := some "0xDEV"
    baseTokenAddress := "0xBASE"
    quoteTokenAddress := "0xQUOTE"
    priceUsd := "1.23"
    liquidityUsd := 1000
    volume24h := 500
    topHolderPct := 10 }

/-- Configuration whose token blacklist holds the lowercase address
0xabc, as in the spec scenario. -/
def cfgC1 : Config := { cfg0 with blacklistTokens := ["0xabc"] }

/-- The spec scenario snapshot: pair address 0xABC, differing from the
blacklist entry only by case. -/
def dC1 : PairData := { pd0 with pairAddress := "0xABC" }

/-- A world whose market fetch succeeds with the blacklisted pair; the
remaining services are healthy, so any further call would succeed. -/
def wC1 : World :=
  { dex := .respond 200 (some dC1)
    audit := .raise "timeout"
    balance := .ok 100
    order := .respond 201 "ok" (.ok "conf") }

/-- A world where every service responds and every check input is
passing: audit GOOD with score 80 against minimum 70, venue creates the
order. -/
def wPass : World :=
  { dex := .respond 200 (some pd0)
    audit := .payload (some "GOOD") (some 80)
    balance := .ok 100
    order := .respond 201 "ok" (.ok "conf") }

/-- A world where the audit provider times out and everything else is
healthy. -/
def wAuditRaise : World := { wPass with audit := .raise "timed out" }

/-- A world where the audit provider reports score 50 (status GOOD)
against configured minimum 70. -/
def wAuditLow : World := { wPass with audit := .payload (some "GOOD") (some 50) }

/-- A world whose market fetch raises a transport error. -/
def wDexRaise : World := { wPass with dex := .raise "conn reset" }

theorem countPosts_append (s t : Trace) :
    countPosts (s ++ t) = countPosts s + countPosts t := by
  induction s with
  | nil => simp [countPosts]
  | cons h r ih => cases h <;> simp [countPosts, ih, Nat.add_right_comm]

theorem loopChecks_approval {L : List (Option Verdict × Trace)} :
    ∀ {acc t : Trace} {m : String},
      loopChecks L acc = .val (.approval true m) t →
      ∀ r ∈ L, ∃ v, r.1 = some v ∧ v.passed = true := by
  induction L with
  | nil => intro acc t m h r hr; simp at hr
  | cons p rest ih =>
    intro acc t m h r hr
    obtain ⟨q, tq⟩ := p
    cases q with
    | none => simp [loopChecks] at h
    | some v =>
      by_cases hv : v.passed
      · rcases List.mem_cons.mp hr with h1 | h1
        · subst h1; exact ⟨v, rfl, hv⟩
        · exact ih (by simpa [loopChecks, hv] using h) r h1
      · simp [loopChecks, hv] at h

theorem check_blacklists_trace (cfg : Config) (d : PairData) :
    (check_blacklists cfg d).2 = [] := by
  simp only [check_blacklists]
  split_ifs <;> rfl

theorem check_rug_pull_risk_trace (cfg : Config) (d : PairData) (a : AuditOutcome) :
    (check_rug_pull_risk cfg d a).2 = [NetCall.auditGet d.baseTokenAddress] := by
  cases a with
  | raise m => rfl
  | payload st sc =>
    simp only [check_rug_pull_risk]
    split_ifs <;> cases sc <;> rfl

theorem loopChecks_cases {L : List (Option Verdict × Trace)} :
    ∀ {acc : Trace}, (∃ p ∈ L, p.1 = none) → countPosts acc = 0 →
      (∀ p ∈ L, countPosts p.2 = 0) →
      (∃ v t, loopChecks L acc = .val (.verdict v) t ∧ v.passed = false ∧ countPosts t = 0) ∨
      (∃ t, loopChecks L acc = .exn "\x27NoneType\x27 object is not subscriptable" t ∧
         countPosts t = 0) := by
  induction L with
  | nil => intro acc hnone _ _; simp at hnone
  | cons p rest ih =>
    intro acc hnone hacc htr
    obtain ⟨q, tq⟩ := p
    have htq : countPosts tq = 0 := htr (q, tq) (List.mem_cons_self _ _)
    have hq0 : countPosts (acc ++ tq) = 0 := by simp [countPosts_append, hacc, htq]
    cases q with
    | none =>
      right
      exact ⟨acc ++ tq, by simp [loopChecks], hq0⟩
    | some v =>
      by_cases hv : v.passed
      · have hnone2 : ∃ p ∈ rest, p.1 = none := by
          rcases hnone with ⟨p, hp, hp1⟩
          rcases List.mem_cons.mp hp with h | h
          · subst h; simp at hp1
          · exact ⟨p, h, hp1⟩
        have hrec := ih hnone2 hq0 (fun p hp => htr p (List.mem_cons_of_mem _ hp))
        simpa [loopChecks, hv] using hrec
      · left
        exact ⟨v, acc ++ tq, by simp [loopChecks, hv], by simpa using hv, hq0⟩

theorem security_analysis_cases (cfg : Config) (d : PairData) (a : AuditOutcome) :
    (∃ v t, security_analysis cfg d a = .val (.verdict v) t ∧ v.passed = false ∧
       countPosts t = 0) ∨
    (∃ t, security_analysis cfg d a = .exn "\x27NoneType\x27 object is not subscriptable" t ∧
       countPosts t = 0) := by
  unfold security_analysis
  apply loopChecks_cases
  · exact ⟨check_liquidity d, by simp [securityChecks], rfl⟩
  · rfl
  · intro p hp
    simp only [securityChecks, List.mem_cons, List.not_mem_nil, or_false] at hp
    rcases hp with h | h | h | h | h
    · subst h; rw [check_blacklists_trace]; rfl
    · subst h; rw [check_rug_pull_risk_trace]; rfl
    · subst h; rfl
    · subst h; rfl
    · subst h; rfl

theorem execute_gmgn_order_trace (cfg : Config) (d : PairData) (b : BalanceOutcome)
    (o : OrderOutcome) :
    (execute_gmgn_order cfg d b o).2
      = [NetCall.balanceGet,
         NetCall.orderPost (build_order cfg d ((get_gmgn_balance b).1 * cfg.positionSizePct))] := by
  cases b <;> cases o <;>
    simp only [execute_gmgn_order, get_gmgn_balance] <;>
    (try split) <;>
    (try split) <;>
    rfl

/-- Claim C1, evaluated at the failing input.  On the spec scenario
(pair address 0xABC with token blacklist holding 0xabc and a successful
market fetch) the workflow does not return the rejection dict of the
blacklist check: reading security_check["approved"] on the failing
check dict (whose keys are passed/reason) raises KeyError, caught at
the orchestrator boundary, so analyze_and_trade returns the error dict
whose message is str(KeyError), after the single market-data fetch and
no further network call. -/
theorem c1_blacklisted_pair_yields_error_dict :
    analyze_and_trade cfgC1 wC1 "0xABC"
      = (.statusError "\x27approved\x27", [NetCall.dexFetch "0xABC"]) := by decide

/-- Claim C2, evaluated at failing inputs: _execute_gmgn_order performs
no sizing validation.  With position_size_pct = 2 (outside the interval
(0,1]) and balance 100 it still POSTs the order, with amount 200
exceeding the balance; with position_size_pct = 0 it POSTs an order of
amount 0; with balance 0 it POSTs an order of amount 0.  No sizing
rejection exists in the code. -/
theorem c2_sizing_never_rejected :
    postedOrders (execute_gmgn_order { cfg0 with positionSizePct := 2 } pd0 (.ok 100)
        (.respond 400 "bad" (.error "x"))).2
      = [build_order { cfg0 with positionSizePct := 2 } pd0 200] ∧
    (100 : ℚ) < 200 ∧
    postedOrders (execute_gmgn_order { cfg0 with positionSizePct := 0 } pd0 (.ok 100)
        (.respond 400 "bad" (.error "x"))).2
      = [build_order { cfg0 with positionSizePct := 0 } pd0 0] ∧
    postedOrders (execute_gmgn_order cfg0 pd0 (.ok 0)
        (.respond 400 "bad" (.error "x"))).2
      = [build_order cfg0 pd0 0] := by
  refine ⟨?_, by norm_num, ?_, ?_⟩ <;>
    norm_num [execute_gmgn_order, get_gmgn_balance, postedOrders, build_order]

/-- Claim C3, evaluated at the failing input: when the balance GET
raises, _get_gmgn_balance returns exactly Decimal(0) (the first half of
the claim holds), but the workflow then submits the order anyway with
amount 0 * pct = 0 instead of rejecting on sizing, and can even return
the success dict when the venue answers 201. -/
theorem c3_balance_failure_still_submits :
    (get_gmgn_balance (.raise "connection timeout")).1 = 0 ∧
    execute_gmgn_order cfg0 pd0 (.raise "connection timeout")
        (.respond 201 "created" (.ok "venue-confirmation"))
      = (.statusSuccess "venue-confirmation",
         [NetCall.balanceGet, NetCall.orderPost (build_order cfg0 pd0 0)]) := by
  refine ⟨rfl, ?_⟩
  simp [execute_gmgn_order, get_gmgn_balance]

/-- Claim C4: the engine runs the checks in their fixed order and
short-circuits on the first failing verdict.  If the blacklist check
fails, the engine returns exactly its verdict dict with an empty
network trace (the audit provider is never consulted, no later check
runs); if the blacklist check passes and the rug-pull check fails, the
engine returns exactly the rug-pull verdict with only the audit call in
the trace; and the engine returns the approval dict only if every check
in the registry produced a passing verdict. -/
theorem c4_engine_first_failure_wins (cfg : Config) (d : PairData) (a : AuditOutcome) :
    (∀ v, check_blacklists cfg d = (some v, []) → v.passed = false →
       security_analysis cfg d a = .val (.verdict v) []) ∧
    (∀ v w, check_blacklists cfg d = (some v, []) → v.passed = true →
       check_rug_pull_risk cfg d a = (some w, [NetCall.auditGet d.baseTokenAddress]) →
       w.passed = false →
       security_analysis cfg d a = .val (.verdict w) [NetCall.auditGet d.baseTokenAddress]) ∧
    (∀ m t, security_analysis cfg d a = .val (.approval true m) t →
       ∀ r ∈ securityChecks cfg d a, ∃ v, r.1 = some v ∧ v.passed = true) := by
  refine ⟨?_, ?_, ?_⟩
  · intro v h hp
    unfold security_analysis securityChecks
    rw [h]
    simp [loopChecks, hp]
  · intro v w h hp h2 hw
    unfold security_analysis securityChecks
    rw [h, h2]
    simp [loopChecks, hp, hw]
  · intro m t h
    exact loopChecks_approval h

/-- Witness for claim C4: at the spec scenario input the blacklist
check fails with reason Token blacklisted, and the engine returns
exactly that verdict with an empty trace, whatever the audit provider
would have answered. -/
theorem c4_witness :
    security_analysis cfgC1 dC1 (.raise "timeout")
      = .val (.verdict { passed := false, reason := some "Token blacklisted" }) [] :=
  (c4_engine_first_failure_wins cfgC1 dC1 (.raise "timeout")).1
    { passed := false, reason := some "Token blacklisted" } (by decide) rfl

/-- Claim C5, evaluated at the failing inputs.  The check itself is
fail-closed exactly as claimed: a provider timeout yields the fail
verdict with the distinct reason Audit verification error, and score 50
against minimum 70 yields the fail verdict referencing the low score.
But the workflow result is not a rejection: in both worlds
analyze_and_trade returns the error dict with message str(KeyError)
raised by reading the approved key of the failing check dict. -/
theorem c5_audit_fail_closed_but_workflow_errors :
    check_rug_pull_risk cfg0 pd0 (.raise "timed out")
      = (some { passed := false, reason := some "Audit verification error" },
         [NetCall.auditGet "0xBASE"]) ∧
    check_rug_pull_risk cfg0 pd0 (.payload (some "GOOD") (some 50))
      = (some { passed := false, reason := some "Low audit score: 50" },
         [NetCall.auditGet "0xBASE"]) ∧
    (analyze_and_trade cfg0 wAuditRaise "0xPAIR").1 = .statusError "\x27approved\x27" ∧
    (analyze_and_trade cfg0 wAuditLow "0xPAIR").1 = .statusError "\x27approved\x27" := by
  exact ⟨by decide, by decide, by decide, by decide⟩

/-- Counterexample for claim C6: on a non-success HTTP status (404)
whose body parses as JSON, _get_dexscreener_data does not return a
Failure — response.status_code is never inspected, so the parsed body
is returned as data. -/
theorem c6_counterexample_nonsuccess_status_returned :
    get_dexscreener_data (.respond 404 (some pd0)) "0xPAIR"
      = (some pd0, [NetCall.dexFetch "0xPAIR"]) ∧
    (get_dexscreener_data (.respond 404 (some pd0)) "0xPAIR").1 ≠ none := by
  exact ⟨by decide, by decide⟩

/-- Claim C6 as amended: the market-data fetch returns a Failure (None)
on every transport error and on every body that fails JSON decoding,
but it does not inspect the HTTP status code — a response body that
parses is returned as data whatever the status; and whenever the fetch
raises a transport error, analyze_and_trade returns the Error dict
"Data fetch failed" with the fetch as the only network call, so no
security check is executed. -/
theorem c6_fetch_failure_amended (cfg : Config) (w : World) (pa m : String) (st : Nat) :
    get_dexscreener_data (.raise m) pa = (none, [NetCall.dexFetch pa]) ∧
    get_dexscreener_data (.respond st none) pa = (none, [NetCall.dexFetch pa]) ∧
    (∀ b, (get_dexscreener_data (.respond st b) pa).1 = b) ∧
    (w.dex = .raise m →
       analyze_and_trade cfg w pa
         = (.statusError "Data fetch failed", [NetCall.dexFetch pa])) := by
  refine ⟨rfl, rfl, fun b => rfl, ?_⟩
  intro h
  unfold analyze_and_trade
  rw [h]
  rfl

/-- Witness for the amended claim C6: a concrete world whose market
fetch raises. -/
theorem c6_amended_witness :
    analyze_and_trade cfg0 wDexRaise "0xPAIR"
      = (.statusError "Data fetch failed", [NetCall.dexFetch "0xPAIR"]) :=
  (c6_fetch_failure_amended cfg0 wDexRaise "0xPAIR" "conn reset" 0).2.2.2 rfl

/-- Claim C7 (with the three unimplemented checks modelled from the
spec): whenever the market fetch succeeds, all five security checks
pass, and the venue answers the POST with status 201 and a decodable
confirmation payload, analyze_and_trade returns the success dict
carrying that payload unchanged. -/
theorem c7_all_checks_pass_created_yields_success (cfg : Config) (w : World) (pa : String)
    (d : PairData) (st : Nat) (text : String) (j : Confirmation)
    (hdex : w.dex = .respond st (some d))
    (h1 : check_blacklists cfg d = (some { passed := true, reason := none }, []))
    (h2 : check_rug_pull_risk cfg d w.audit
       = (some { passed := true, reason := none }, [NetCall.auditGet d.baseTokenAddress]))
    (h3 : check_liquidity_spec cfg d = (some { passed := true, reason := none }, []))
    (h4 : validate_volume_spec cfg d = (some { passed := true, reason := none }, []))
    (h5 : analyze_holders_spec cfg d = (some { passed := true, reason := none }, []))
    (hord : w.order = .respond 201 text (.ok j)) :
    (analyze_and_trade_spec cfg w pa).1 = .statusSuccess j := by
  have hsec : security_analysis_spec cfg d w.audit
      = .val (.approval true "Security checks passed")
          [NetCall.auditGet d.baseTokenAddress] := by
    unfold security_analysis_spec securityChecks_spec
    rw [h1, h2, h3, h4, h5]
    simp [loopChecks]
  unfold analyze_and_trade_spec
  rw [hdex]
  simp only [get_dexscreener_data]
  rw [hsec]
  simp only [SecOut.getApproved]
  cases hb : w.balance <;> simp [execute_gmgn_order, get_gmgn_balance, hord]

/-- Witness for claim C7: a concrete all-passing world (audit GOOD with
score 80 against minimum 70, healthy metrics, venue answering 201)
yields the success dict carrying the venue confirmation. -/
theorem c7_witness :
    (analyze_and_trade_spec cfg0 wPass "0xPAIR").1 = .statusSuccess "conf" :=
  c7_all_checks_pass_created_yields_success cfg0 wPass "0xPAIR" pd0 200 "ok" "conf"
    rfl (by decide) (by decide) (by decide) (by decide) (by decide) rfl

/-- Claim C8: _execute_gmgn_order performs exactly one POST per call
whatever the venue answers (no internal retry), and interprets the
response as claimed: status 201 with a confirmation payload maps to the
success dict carrying it, any other status maps to the error dict
carrying the venue response text, and a transport failure maps to the
error dict carrying the failure description. -/
theorem c8_single_post_and_response_mapping (cfg : Config) (d : PairData)
    (b : BalanceOutcome) (o : OrderOutcome) :
    countPosts (execute_gmgn_order cfg d b o).2 = 1 ∧
    (∀ text j, o = .respond 201 text (.ok j) →
       (execute_gmgn_order cfg d b o).1 = .statusSuccess j) ∧
    (∀ st text body, o = .respond st text body → st ≠ 201 →
       (execute_gmgn_order cfg d b o).1 = .statusError text) ∧
    (∀ m, o = .raise m → (execute_gmgn_order cfg d b o).1 = .statusError m) := by
  refine ⟨?_, ?_, ?_, ?_⟩
  · rw [execute_gmgn_order_trace]; rfl
  · intro text j ho
    subst ho
    cases b <;> simp [execute_gmgn_order, get_gmgn_balance]
  · intro st text body ho hne
    subst ho
    cases b <;> cases body <;> simp [execute_gmgn_order, get_gmgn_balance, hne]
  · intro m ho
    subst ho
    cases b <;> simp [execute_gmgn_order, get_gmgn_balance]

/-- Witness for claim C8: one concrete call with a 201 response makes
exactly one POST and returns the success dict with the venue payload. -/
theorem c8_witness :
    countPosts (execute_gmgn_order cfg0 pd0 (.ok 50) (.respond 201 "ok" (.ok "conf"))).2 = 1 ∧
    (execute_gmgn_order cfg0 pd0 (.ok 50) (.respond 201 "ok" (.ok "conf"))).1
      = .statusSuccess "conf" :=
  ⟨(c8_single_post_and_response_mapping cfg0 pd0 (.ok 50) (.respond 201 "ok" (.ok "conf"))).1,
   (c8_single_post_and_response_mapping cfg0 pd0 (.ok 50)
       (.respond 201 "ok" (.ok "conf"))).2.1 "ok" "conf" rfl⟩

/-- Claim C9: for a successfully fetched balance b > 0 and a configured
percentage in (0,1], the one order the call POSTs carries amount
exactly b * positionSizePct, with Decimal arithmetic modelled as exact
rational arithmetic (no drift). -/
theorem c9_position_size_decimal_exact (cfg : Config) (d : PairData) (o : OrderOutcome)
    (b : ℚ) (_hb : 0 < b) (_h1 : 0 < cfg.positionSizePct) (_h2 : cfg.positionSizePct ≤ 1) :
    postedOrders (execute_gmgn_order cfg d (.ok b) o).2
      = [build_order cfg d (b * cfg.positionSizePct)] ∧
    (build_order cfg d (b * cfg.positionSizePct)).amount = b * cfg.positionSizePct := by
  refine ⟨?_, rfl⟩
  rw [execute_gmgn_order_trace]
  simp [postedOrders, get_gmgn_balance]

/-- Witness for claim C9: balance 100 with percentage 1 POSTs exactly
one order of amount 100 * 1. -/
theorem c9_witness :
    postedOrders (execute_gmgn_order cfg0 pd0 (.ok 100)
        (.respond 201 "ok" (.ok "conf"))).2
      = [build_order cfg0 pd0 (100 * cfg0.positionSizePct)] ∧
    (build_order cfg0 pd0 (100 * cfg0.positionSizePct)).amount
      = 100 * cfg0.positionSizePct :=
  c9_position_size_decimal_exact cfg0 pd0 (.respond 201 "ok" (.ok "conf")) 100
    (by decide) (by decide) (by decide)

/-- Claim C10: with the source stubs, any snapshot that passes both the
blacklist and the rug-pull check reaches _check_liquidity, which
returns None; subscripting it raises TypeError, caught at the
orchestrator boundary into the error dict; and on every input
whatsoever the workflow never returns the success dict and never POSTs
an order — approval and submission are unreachable. -/
theorem c10_stub_checks_block_approval (cfg : Config) (w : World) (pa : String) :
    (∀ st d, w.dex = .respond st (some d) →
       check_blacklists cfg d = (some { passed := true, reason := none }, []) →
       check_rug_pull_risk cfg d w.audit
         = (some { passed := true, reason := none }, [NetCall.auditGet d.baseTokenAddress]) →
       (analyze_and_trade cfg w pa).1
         = .statusError "\x27NoneType\x27 object is not subscriptable") ∧
    (∀ j, (analyze_and_trade cfg w pa).1 ≠ .statusSuccess j) ∧
    countPosts (analyze_and_trade cfg w pa).2 = 0 := by
  have main : ∃ mm tt, analyze_and_trade cfg w pa = (.statusError mm, tt) ∧
      countPosts tt = 0 := by
    unfold analyze_and_trade
    cases hdex : w.dex with
    | raise m =>
      exact ⟨"Data fetch failed", [NetCall.dexFetch pa], rfl, rfl⟩
    | respond st body =>
      cases body with
      | none => exact ⟨"Data fetch failed", [NetCall.dexFetch pa], rfl, rfl⟩
      | some d =>
        simp only [get_dexscreener_data]
        rcases security_analysis_cases cfg d w.audit with
          ⟨v, t, hs, hv, hc⟩ | ⟨t, hs, hc⟩
        · rw [hs]
          exact ⟨"\x27approved\x27", [NetCall.dexFetch pa] ++ t,
            by simp [SecOut.getApproved],
            by simp [countPosts_append, hc, countPosts]⟩
        · rw [hs]
          exact ⟨"\x27NoneType\x27 object is not subscriptable", [NetCall.dexFetch pa] ++ t,
            rfl, by simp [countPosts_append, hc, countPosts]⟩
  obtain ⟨mm, tt, hm, hc⟩ := main
  refine ⟨?_, ?_, ?_⟩
  · intro st d hdex hbl hrug
    have hsec : security_analysis cfg d w.audit
        = .exn "\x27NoneType\x27 object is not subscriptable"
            [NetCall.auditGet d.baseTokenAddress] := by
      unfold security_analysis securityChecks
      rw [hbl, hrug]
      simp [loopChecks, check_liquidity]
    unfold analyze_and_trade
    rw [hdex]
    simp only [get_dexscreener_data]
    rw [hsec]
  · intro j
    rw [hm]
    simp
  · rw [hm]
    exact hc

/-- Witness for claim C10: a concrete world whose fetch succeeds and
whose first two checks pass (audit GOOD, score 80 against minimum 70)
yields the TypeError error dict raised at the liquidity stub. -/
theorem c10_witness :
    (analyze_and_trade cfg0 wPass "0xPAIR").1
      = .statusError "\x27NoneType\x27 object is not subscriptable" :=
  (c10_stub_checks_block_approval cfg0 wPass "0xPAIR").1 200 pd0 rfl (by decide) (by decide)
